import Mathlib

/-!
Verification of `openregistry.convoy` (`src/openregistry/convoy/utils.py`)
against its natural-language specification.

The Python module is shallowly embedded as executable Lean definitions:

* external backends (redis / lazydb key-value stores, the CouchDB server,
  the upstream API client constructors) are modelled as explicit oracle
  records whose operations return `Except PyErr _` — the code under
  verification is the orchestration logic of `utils.py`, which is embedded
  faithfully on top of those oracles;
* Python exceptions are values of type `PyErr`; a raised exception is an
  `Except.error`;
* Python dicts used as string-keyed mappings are association lists with the
  usual first-match lookup and in-place update;
* the generator `continuous_changes_feed` is embedded as a fuel-indexed
  trace function: each loop iteration is recorded as a `FeedStep` carrying
  the issued changes request, the response, the documents yielded to the
  caller, the observed value of the cancellation flag, the idle sleep (if
  any) and whether the generator terminated;
* logging calls are ignored (they carry no data flow).
-/

/-! ## Python-level error values -/

/-- Values of Python exceptions that can be raised by the embedded code or by
its backends: `AssertionError` (a failed `assert`), the module's own
`ConfigError`, `socket.error` (with its `strerror`), `KeyError`, a couchdb
library server-side error, and an arbitrary exception raised by an upstream
client constructor. -/
inductive PyErr
  | assertionError
  | configError (msg : String)
  | socketError (strerror : String)
  | keyError (key : String)
  | serverError (msg : String)
  | exc (name : String)
deriving DecidableEq, Repr

/-- Decidable equality for `Except`, so that concrete runs can be checked by
`decide`. -/
instance {ε α : Type} [DecidableEq ε] [DecidableEq α] : DecidableEq (Except ε α) := fun a b =>
  match a, b with
  | Except.ok x, Except.ok y =>
    if h : x = y then isTrue (by rw [h]) else isFalse (by intro hc; cases hc; exact h rfl)
  | Except.error x, Except.error y =>
    if h : x = y then isTrue (by rw [h]) else isFalse (by intro hc; cases hc; exact h rfl)
  | Except.ok _, Except.error _ => isFalse (by intro hc; cases hc)
  | Except.error _, Except.ok _ => isFalse (by intro hc; cases hc)

/-- True exactly on `Except.ok`. -/
def isOkE {ε α : Type} : Except ε α → Bool
  | Except.ok _ => true
  | Except.error _ => false

/-- True exactly on the module's `ConfigError`. -/
def isConfigError : PyErr → Bool
  | PyErr.configError _ => true
  | _ => false

/-- True exactly on `socket.error` values (the only exception class caught by
`prepare_couchdb`). -/
def isSocketError : PyErr → Bool
  | PyErr.socketError _ => true
  | _ => false

/-! ## String-keyed mappings (Python dicts) -/

/-- Lookup in a string-keyed mapping (Python `d.get(key)`), first match. -/
def mapGet : List (String × String) → String → Option String
  | [], _ => none
  | (k, v) :: rest, key => if k = key then some v else mapGet rest key

/-- Membership test (Python `key in d` / a store's `has`). -/
def mapHas (m : List (String × String)) (key : String) : Bool :=
  (mapGet m key).isSome

/-- Update/insert (Python `d[key] = val`). -/
def mapSet : List (String × String) → String → String → List (String × String)
  | [], key, val => [(key, val)]
  | (k, v) :: rest, key, val =>
    if k = key then (key, val) :: rest else (k, v) :: mapSet rest key val

/-- Deletion (Python `del d[key]` / a store's `delete`). -/
def mapDelete : List (String × String) → String → List (String × String)
  | [], _ => []
  | (k, v) :: rest, key =>
    if k = key then mapDelete rest key else (k, v) :: mapDelete rest key

/-! ## ErrorClassifier: `EXCEPTIONS` and `retry_on_error` -/

/-- Upstream API exception classes imported from
`openprocurement_client.exceptions`, plus a catch-all constructor for any
exception outside that family. -/
inductive ExcClass
  | Forbidden
  | RequestFailed
  | ResourceNotFound
  | UnprocessableEntity
  | PreconditionFailed
  | Conflict
  | OtherException
deriving DecidableEq, Repr

/-- Source line 46: the tuple of recognized upstream-API exception classes. -/
def EXCEPTIONS : List ExcClass :=
  [ExcClass.Forbidden, ExcClass.RequestFailed, ExcClass.ResourceNotFound,
   ExcClass.UnprocessableEntity, ExcClass.PreconditionFailed, ExcClass.Conflict]

/-- An upstream error value: its (dynamic) exception class and its
`status_code` attribute. For values outside the recognized family the
`status_code` field is irrelevant (Python's short-circuit `and` never reads
it); the model carries it anyway. -/
structure ApiError where
  cls : ExcClass
  status_code : Int
deriving DecidableEq, Repr

/-- Python `isinstance(exception, EXCEPTIONS)`. -/
def isinstance_EXCEPTIONS (exception : ApiError) : Bool :=
  EXCEPTIONS.contains exception.cls

/-- Source lines 267-273: `retry_on_error`. -/
def retry_on_error (exception : ApiError) : Bool :=
  if isinstance_EXCEPTIONS exception = true ∧
      (exception.status_code ≥ 500 ∨
        exception.status_code ∈ ([409, 412, 429] : List Int)) then
    true
  else
    false

/-! ## DedupStore: `AuctionsMapping` and `prepare_auctions_mapping` -/

/-- Operations performed on the auctions mapping during the
`prepare_auctions_mapping` self-check, recorded in order. -/
inductive MapOp
  | put (key val : String)
  | has (key : String)
  | get (key : String)
  | delete (key : String)
deriving DecidableEq, Repr

/-- Model of the `AuctionsMapping` class: a record of its four operations
over a backend state `σ`. The real class dispatches on the presence of a
`host` configuration key between a redis backend and a lazydb backend; both
are external services, so an instance is modelled as the uniform
capability record the class exposes (logging in `put` is dropped).
Operations may fail with a backend error (`Except.error`). -/
structure AuctionsMapping (σ : Type) where
  put : σ → String → String → Except PyErr σ
  get : σ → String → Except PyErr (Option String)
  has : σ → String → Except PyErr Bool
  delete : σ → String → Except PyErr σ

/-- The lazydb-backed instance of `AuctionsMapping`, with the store state as
an association list; its operations never fail. -/
def lazydbMapping : AuctionsMapping (List (String × String)) :=
  { put := fun s k v => Except.ok (mapSet s k v)
    get := fun s k => Except.ok (mapGet s k)
    has := fun s k => Except.ok (mapHas s k)
    delete := fun s k => Except.ok (mapDelete s k) }

/-- Source lines 120-140: `prepare_auctions_mapping`. The construction of
the `AuctionsMapping` instance itself is external (redis/lazydb handles);
the embedded part is the optional sentinel self-check. The result is the
ordered trace of store operations performed, together with either the final
store state (the function returns the mapping) or the raised exception: a
failed `assert` raises `AssertionError`, and a backend failure propagates
the backend's own error. -/
def prepare_auctions_mapping {σ : Type} (db : AuctionsMapping σ) (s : σ)
    (check : Bool := false) : List MapOp × Except PyErr σ :=
  if check then
    match db.put s "test" "1" with
    | Except.error e => ([MapOp.put "test" "1"], Except.error e)
    | Except.ok s1 =>
      match db.has s1 "test" with
      | Except.error e => ([MapOp.put "test" "1", MapOp.has "test"], Except.error e)
      | Except.ok h1 =>
        if h1 = true then
          match db.get s1 "test" with
          | Except.error e =>
            ([MapOp.put "test" "1", MapOp.has "test", MapOp.get "test"], Except.error e)
          | Except.ok v =>
            if v = some "1" then
              match db.delete s1 "test" with
              | Except.error e =>
                ([MapOp.put "test" "1", MapOp.has "test", MapOp.get "test",
                  MapOp.delete "test"], Except.error e)
              | Except.ok s2 =>
                match db.has s2 "test" with
                | Except.error e =>
                  ([MapOp.put "test" "1", MapOp.has "test", MapOp.get "test",
                    MapOp.delete "test", MapOp.has "test"], Except.error e)
                | Except.ok h2 =>
                  if h2 = false then
                    ([MapOp.put "test" "1", MapOp.has "test", MapOp.get "test",
                      MapOp.delete "test", MapOp.has "test"], Except.ok s2)
                  else
                    ([MapOp.put "test" "1", MapOp.has "test", MapOp.get "test",
                      MapOp.delete "test", MapOp.has "test"],
                     Except.error PyErr.assertionError)
            else
              ([MapOp.put "test" "1", MapOp.has "test", MapOp.get "test"],
               Except.error PyErr.assertionError)
        else
          ([MapOp.put "test" "1", MapOp.has "test"], Except.error PyErr.assertionError)
  else
    ([], Except.ok s)

/-- The expected full self-check trace. -/
def selfCheckTrace : List MapOp :=
  [MapOp.put "test" "1", MapOp.has "test", MapOp.get "test",
   MapOp.delete "test", MapOp.has "test"]

/-! ## `prepare_couchdb` -/

/-- A couchdb database handle. -/
structure CouchDb where
  name : String
deriving DecidableEq, Repr

/-- Model of the couchdb `Server` handle: membership test (`db_name in
server`), database creation (`server.create`) and fetch
(`server[db_name]`). Each operation may raise. -/
structure CouchServer where
  contains : String → Except PyErr Bool
  create : String → Except PyErr CouchDb
  index : String → Except PyErr CouchDb

/-- The body of the `try` block of `prepare_couchdb`: create the database
when absent, fetch it when present. -/
def couchAttempt (server : CouchServer) (db_name : String) : Except PyErr CouchDb :=
  match server.contains db_name with
  | Except.error e => Except.error e
  | Except.ok present =>
    if present = false then server.create db_name else server.index db_name

/-- Source lines 143-154: `prepare_couchdb`. Only `socket.error` is caught
(`except error as e`, where `error` is `socket.error`); it is re-raised as
`ConfigError(e.strerror)`. Any other exception propagates unchanged. -/
def prepare_couchdb (server : CouchServer) (db_name : String) : Except PyErr CouchDb :=
  match couchAttempt server db_name with
  | Except.ok db => Except.ok db
  | Except.error (PyErr.socketError strerror) => Except.error (PyErr.configError strerror)
  | Except.error e => Except.error e

/-! ## FilterDocumentInstaller: `FILTER_CONVOY_FEED_DOC` and `push_filter_doc` -/

/-- Source line 47: the fixed design-document id. -/
def FILTER_DOC_ID : String := "_design/auction_filters"

/-- Python `repr` of one character inside a single-quoted string literal:
backslash and the single quote are escaped. (For the plain identifier
strings used as procurement-method types this agrees with CPython.) -/
def pyEscapeChar (c : Char) : String :=
  if c = Char.ofNat 92 then "\\\\"
  else if c = Char.ofNat 39 then "\\\x27"
  else c.toString

/-- Python `repr` of a string (single-quoted form). -/
def pyReprStr (s : String) : String :=
  "\x27" ++ String.join (s.toList.map pyEscapeChar) ++ "\x27"

/-- Python `repr`/`str` of a list of strings, as produced by `"%s" % lst`. -/
def pyReprList (l : List String) : String :=
  "[" ++ String.intercalate ", " (l.map pyReprStr) ++ "]"

/-- Source lines 48-73, the filter-script template `FILTER_CONVOY_FEED_DOC`,
split at its two `%s` placeholders (braces are written `\x7b`/`\x7d` and
single quotes `\x27`; the byte content is that of the Python literal). -/
def FILTER_CONVOY_FEED_DOC_part1 : String :=
  "\nfunction(doc, req) \x7b\n    if (doc.doc_type == \x27Auction\x27) \x7b\n    \n        // basic lots auctions\n        if ("

/-- Template text between the first and the second `%s` placeholder. -/
def FILTER_CONVOY_FEED_DOC_part2 : String :=
  ".indexOf(doc.procurementMethodType) >= 0) \x7b\n    \n            if (doc.status == \x27pending.verification\x27) \x7b\n                return true;\n            \x7d else if ([\x27complete\x27, \x27cancelled\x27, \x27unsuccessful\x27].indexOf(doc.status) >= 0 && doc.merchandisingObject) \x7b\n                return true;\n            \x7d;\n            \n        // loki lots auctions\n        \x7d else if ("

/-- Template text after the second `%s` placeholder. -/
def FILTER_CONVOY_FEED_DOC_part3 : String :=
  ".indexOf(doc.procurementMethodType) >= 0) \x7b\n        \n            if ([\x27complete\x27, \x27cancelled\x27, \x27unsuccessful\x27].indexOf(doc.status) >= 0  && doc.merchandisingObject) \x7b\n                return true;\n            \x7d;\n        \n        \x7d;\n        \n    \x7d\n    return false;\n\x7d\n"

/-- The `auctions_types` configuration dict: its `basic` and `loki`
track-type lists (`auctions_types.get('basic', [])` yields `[]` when the
key is absent, so absence coincides with the empty list). -/
structure AuctionsTypes where
  basic : List String
  loki : List String
deriving DecidableEq, Repr

/-- Python `FILTER_CONVOY_FEED_DOC % (auctions_types.get('basic', []),
auctions_types.get('loki', []))`: the rendered predicate text. -/
def filter_convoy_feed_doc_of (auctions_types : AuctionsTypes) : String :=
  FILTER_CONVOY_FEED_DOC_part1 ++ pyReprList auctions_types.basic ++
  FILTER_CONVOY_FEED_DOC_part2 ++ pyReprList auctions_types.loki ++
  FILTER_CONVOY_FEED_DOC_part3

/-- The stored design document: its `_id`, its `filters` sub-mapping of
named filter scripts, and any further fields it may carry. -/
structure FiltersDoc where
  _id : String
  filters : List (String × String)
  extra : List (String × String)
deriving DecidableEq, Repr

/-- Result of one `push_filter_doc` call: the stored document afterwards
(`none` only when nothing was stored and nothing was written) and whether
`db.save` was called. -/
structure PushResult where
  newState : Option FiltersDoc
  wrote : Bool
deriving DecidableEq, Repr

/-- The stored `convoy_feed` entry, if a document is stored and has one. -/
def storedConvoyFeed : Option FiltersDoc → Option String
  | none => none
  | some d => mapGet d.filters "convoy_feed"

/-- Source lines 157-170: `push_filter_doc`. The db state is the document
stored at `FILTER_DOC_ID` (`db.get(FILTER_DOC_ID, {'_id': FILTER_DOC_ID,
'filters': {}})` falls back to a fresh default when absent). The Python
guard `filters_doc and ...` is always truthy here (the default dict is
non-empty and a stored couchdb document always has keys), so the write
condition is exactly that the stored `convoy_feed` entry differs from the
rendered text. Without a `db.save` call the mutated local dict is dropped,
so the stored state is unchanged. -/
def push_filter_doc (stored : Option FiltersDoc) (auctions_types : AuctionsTypes) :
    PushResult :=
  let filter_convoy_feed_doc := filter_convoy_feed_doc_of auctions_types
  let filters_doc := stored.getD { _id := FILTER_DOC_ID, filters := [], extra := [] }
  if mapGet filters_doc.filters "convoy_feed" ≠ some filter_convoy_feed_doc then
    { newState :=
        some { filters_doc with
               filters := mapSet filters_doc.filters "convoy_feed" filter_convoy_feed_doc }
      wrote := true }
  else
    { newState := stored, wrote := false }

/-! ## ChangeFeedConsumer: `continuous_changes_feed` -/

/-- Source line 75: the module-global loop flag (constant `True` outside the
test suite). -/
def CONTINUOUS_CHANGES_FEED_FLAG : Bool := true

/-- A change-feed document (`row['doc']`): its identifier plus its
remaining fields. `Munch(row['doc'])` is an attribute-access wrapper around
the same mapping, so yielding it is modelled as yielding the document. -/
structure Document where
  id : String
  fields : List (String × String)
deriving DecidableEq, Repr

/-- One row of a couchdb `_changes` response. -/
structure ChangeRow where
  seq : Nat
  id : String
  doc : Document
deriving DecidableEq, Repr

/-- The parameters of one `db.changes(...)` call. -/
structure ChangesRequest where
  include_docs : Bool
  since : Nat
  limit : Nat
  filter : String
deriving DecidableEq, Repr

/-- A couchdb `_changes` response: the new cursor (`data['last_seq']`) and
the batch (`data['results']`). -/
structure ChangesResponse where
  last_seq : Nat
  results : List ChangeRow
deriving DecidableEq, Repr

/-- The changes request issued by one loop iteration of
`continuous_changes_feed` with cursor `since`. -/
def changesRequestOf (since limit : Nat) (filter_doc : String) : ChangesRequest :=
  { include_docs := true, since := since, limit := limit, filter := filter_doc }

/-- Observable record of one iteration of the `while` loop of
`continuous_changes_feed`: the request issued, the response received, the
documents yielded to the caller (in order), the value of `killer.kill_now`
read during the iteration, the idle sleep performed (`some timeout` when
`sleep(timeout)` ran, else `none`), and whether the iteration ended the
generator (`break`). -/
structure FeedStep where
  request : ChangesRequest
  response : ChangesResponse
  yielded : List Document
  kill : Bool
  slept : Option Nat
  terminated : Bool
deriving DecidableEq, Repr

/-- One iteration of the loop body of `continuous_changes_feed` (source
lines 177-190), from cursor `last_seq_id`, with `kill_now` the value of
`killer.kill_now` read during this iteration. -/
def continuous_changes_feed_step (db : ChangesRequest → ChangesResponse) (kill_now : Bool)
    (timeout limit : Nat) (filter_doc : String) (last_seq_id : Nat) : FeedStep :=
  let req := changesRequestOf last_seq_id limit filter_doc
  let data := db req
  if data.results.length ≠ 0 then
    { request := req, response := data,
      yielded := data.results.map ChangeRow.doc,
      kill := kill_now, slept := none, terminated := kill_now }
  else
    { request := req, response := data, yielded := [],
      kill := kill_now,
      slept := if kill_now then none else some timeout,
      terminated := kill_now }

/-- The loop of `continuous_changes_feed`, unrolled for `fuel` iterations
(the generator is unbounded; a trace of any finite observation window is a
finite unrolling). `i` counts iterations so that `killer i` is the value
the asynchronous flag `killer.kill_now` holds when iteration `i` reads it;
`last_seq_id` is the current cursor. Iterations stop early when an
iteration `break`s. -/
def continuous_changes_feed_aux (db : ChangesRequest → ChangesResponse)
    (killer : Nat → Bool) (timeout limit : Nat) (filter_doc : String) :
    Nat → Nat → Nat → List FeedStep
  | 0, _, _ => []
  | Nat.succ fuel, i, last_seq_id =>
    if CONTINUOUS_CHANGES_FEED_FLAG then
      let st := continuous_changes_feed_step db (killer i) timeout limit filter_doc last_seq_id
      st :: (if st.terminated then []
             else continuous_changes_feed_aux db killer timeout limit filter_doc fuel
                    (i + 1) st.response.last_seq)
    else []

/-- Source lines 173-190: `continuous_changes_feed(db, killer, timeout=10,
limit=100, filter_doc='auction_filters/convoy_feed')`, starting from
`last_seq_id = 0`, observed for `fuel` iterations. -/
def continuous_changes_feed (db : ChangesRequest → ChangesResponse) (killer : Nat → Bool)
    (fuel : Nat) (timeout : Nat := 10) (limit : Nat := 100)
    (filter_doc : String := "auction_filters/convoy_feed") : List FeedStep :=
  continuous_changes_feed_aux db killer timeout limit filter_doc fuel 0 0

/-- The documents a trace yields to the generator's caller, in order. -/
def feedYields (steps : List FeedStep) : List Document :=
  (steps.map FeedStep.yielded).flatten

/-- Holds when every later request's cursor is the `last_seq` returned by
the previous poll. -/
def cursorChained : List FeedStep → Bool
  | [] => true
  | [_] => true
  | a :: b :: rest =>
    (b.request.since == a.response.last_seq) && cursorChained (b :: rest)

/-- Holds when no step follows a terminating step: once an iteration
`break`s, no further poll is issued. -/
def noPollAfterTermination : List FeedStep → Bool
  | [] => true
  | st :: rest => (!st.terminated || rest.isEmpty) && noPollAfterTermination rest

/-! ## ClientBootstrap: `init_clients` -/

/-- The configuration passed to `init_clients`, reduced to what the control
flow reads: which of the four resource sections are present and truthy
(`config.get(section)`), and the couch `db` section (`some name` when
`config['db']` exists, with `name = config['db']['name']`; `none` models a
missing `db` key, whose lookup raises `KeyError('db')` inside the guarded
block). -/
structure ConvoyConfig where
  auctions : Bool
  lots : Bool
  assets : Bool
  contracts : Bool
  db : Option String
deriving DecidableEq, Repr

/-- Source line 194: the candidate section names. -/
def sections_all : List String := ["auctions", "lots", "assets", "contracts"]

/-- Whether `config.get(section)` is truthy. -/
def sectionPresent (config : ConvoyConfig) : String → Bool
  | "auctions" => config.auctions
  | "lots" => config.lots
  | "assets" => config.assets
  | "contracts" => config.contracts
  | _ => false

/-- Source lines 197-202: the `clients_from_config` table, as the list of
`(client key, section)` pairs in the order the dict literal writes them
(CPython 2 iterates dicts in an unspecified order; this model fixes the
literal order). -/
def clients_from_config_keys : List (String × String) :=
  [("auctions_client", "auctions"), ("lots_client", "lots"),
   ("assets_client", "assets"), ("contracts_client", "contracts")]

/-- Observable outcome of `init_clients`: the per-resource `('ok'/'failed')`
statuses logged via `LOGGER.check`, in order (`true` = ok); the collected
`exceptions` list, in collection order; and the call's outcome — `ok` when
the clients mapping is returned, `error e` when exception `e` is raised. -/
structure InitResult where
  statuses : List (String × Bool)
  exceptions : List PyErr
  outcome : Except PyErr Unit
deriving DecidableEq, Repr

/-- The singleton error list of a result (used to collect exceptions). -/
def errList {α : Type} : Except PyErr α → List PyErr
  | Except.error e => [e]
  | Except.ok _ => []

/-- Source lines 193-264: `init_clients`, embedded as the helper
definitions below plus the main body. The upstream client constructors are
external, so their outcomes are supplied by the oracle `mkClient` (applied
to the client key); couchdb access goes through `prepare_couchdb` over the
`server` oracle, and the dedup store through `prepare_auctions_mapping`
(with `check=True`) over the mapping instance. Each construction is
attempted inside its own `try`, its status logged, and its exception
collected; afterwards the first collected exception (if any) is raised.
One exception to collect-then-raise is embedded faithfully: when the
`auctions` section is not configured, the dict access
`clients_from_config['auctions_client']` on line 226 raises
`KeyError('auctions_client')` before the couchdb and mapping checks run.
This first helper is the client loop (source lines 194-225): the attempted
clients, in the table's order restricted to the configured sections, each
paired with its construction outcome. -/
def init_clients_clientResults (config : ConvoyConfig)
    (mkClient : String → Except PyErr Unit) : List (String × Except PyErr Unit) :=
  (clients_from_config_keys.filter
    (fun p => (sections_all.filter (sectionPresent config)).contains p.2)).map
    (fun p => (p.1, mkClient p.1))

/-- Source lines 229-248, the couchdb check: build the url from
`config['db']` (a missing `db` key raises `KeyError('db')` inside the
`try`) and call `prepare_couchdb`. Only success/failure matters here. -/
def init_clients_couchResult (config : ConvoyConfig) (server : CouchServer) :
    Except PyErr Unit :=
  match config.db with
  | none => Except.error (PyErr.keyError "db")
  | some name =>
    match prepare_couchdb server name with
    | Except.ok _ => Except.ok ()
    | Except.error e => Except.error e

/-- Source lines 250-259, the processed-auctions-mapping check:
`prepare_auctions_mapping(config.get('auctions_mapping', {}), check=True)`. -/
def init_clients_mappingResult {σ : Type} (mapping_db : AuctionsMapping σ)
    (mapping_s : σ) : Except PyErr Unit :=
  match (prepare_auctions_mapping mapping_db mapping_s true).2 with
  | Except.ok _ => Except.ok ()
  | Except.error e => Except.error e

/-- The `exceptions` list `init_clients` has collected after all three
phases: client-constructor errors in attempt order, then the couchdb
error, then the mapping error. -/
def init_clients_exceptions {σ : Type} (config : ConvoyConfig)
    (mkClient : String → Except PyErr Unit) (server : CouchServer)
    (mapping_db : AuctionsMapping σ) (mapping_s : σ) : List PyErr :=
  ((init_clients_clientResults config mkClient).map (fun p => errList p.2)).flatten ++
  errList (init_clients_couchResult config server) ++
  errList (init_clients_mappingResult mapping_db mapping_s)

/-- The main body of `init_clients` (source lines 193-264); `raise
exceptions[0]` when the collected list is non-empty is rendered as
`Option.elim` on its head. -/
def init_clients {σ : Type} (config : ConvoyConfig) (mkClient : String → Except PyErr Unit)
    (server : CouchServer) (mapping_db : AuctionsMapping σ) (mapping_s : σ) : InitResult :=
  let clientResults := init_clients_clientResults config mkClient
  let clientStatuses := clientResults.map (fun p => (p.1, isOkE p.2))
  let clientExcs := (clientResults.map (fun p => errList p.2)).flatten
  if config.auctions = false then
    { statuses := clientStatuses, exceptions := clientExcs,
      outcome := Except.error (PyErr.keyError "auctions_client") }
  else
    let exceptions := init_clients_exceptions config mkClient server mapping_db mapping_s
    { statuses := clientStatuses ++
        [("couchdb", isOkE (init_clients_couchResult config server)),
         ("auctions_mapping", isOkE (init_clients_mappingResult mapping_db mapping_s))]
      exceptions := exceptions
      outcome := Option.elim exceptions.head? (Except.ok ()) Except.error }

/-! ## Concrete instances used by counterexamples and witnesses -/

/-- A concrete feed document with identifier `"a"`. -/
def docA : Document := { id := "a", fields := [("status", "pending.verification")] }

/-- A store whose every poll returns one-row batches containing `docA` and
cursor 1. -/
def dbA : ChangesRequest → ChangesResponse :=
  fun _ => { last_seq := 1, results := [{ seq := 1, id := "a", doc := docA }] }

/-- A store whose every poll returns an empty batch with cursor 42. -/
def db42 : ChangesRequest → ChangesResponse :=
  fun _ => { last_seq := 42, results := [] }

/-- A cancellation flag that is never set. -/
def neverKill : Nat → Bool := fun _ => false

/-- A cancellation flag that is set from the start. -/
def alwaysKill : Nat → Bool := fun _ => true

/-- A broken mapping backend: accepts writes but loses them (its `has` is
always `false`, its `get` always absent). It makes the second self-check
assertion fail. -/
def brokenMapping : AuctionsMapping Unit :=
  { put := fun s _ _ => Except.ok s
    get := fun _ _ => Except.ok none
    has := fun _ _ => Except.ok false
    delete := fun s _ => Except.ok s }

/-- An unreachable mapping backend: every operation fails with
`socket.error`. -/
def unreachableMapping : AuctionsMapping Unit :=
  { put := fun _ _ _ => Except.error (PyErr.socketError "Connection refused")
    get := fun _ _ => Except.error (PyErr.socketError "Connection refused")
    has := fun _ _ => Except.error (PyErr.socketError "Connection refused")
    delete := fun _ _ => Except.error (PyErr.socketError "Connection refused") }

/-- A couch server on which the target database is absent and creation
fails with a non-socket store error (e.g. the couchdb library's
unauthorized/server error). -/
def serverUnauthorized : CouchServer :=
  { contains := fun _ => Except.ok false
    create := fun _ => Except.error (PyErr.serverError "unauthorized")
    index := fun name => Except.ok { name := name } }

/-- A healthy couch server: the target database already exists. -/
def serverOk : CouchServer :=
  { contains := fun _ => Except.ok true
    create := fun name => Except.ok { name := name }
    index := fun name => Except.ok { name := name } }

/-- A configuration with the `auctions` section absent, the `lots` section
present, and a `db` section. -/
def cfgNoAuctions : ConvoyConfig :=
  { auctions := false, lots := true, assets := false, contracts := false,
    db := some "convoy_db" }

/-- A client-constructor oracle that always fails with exception `boom`. -/
def mkClientBoom : String → Except PyErr Unit :=
  fun _ => Except.error (PyErr.exc "boom")

/-- A track-type configuration with one basic track type. -/
def typesB : AuctionsTypes := { basic := ["basic1"], loki := [] }

/-- The empty track-type configuration. -/
def typesE : AuctionsTypes := { basic := [], loki := [] }

/-- A stored filter document carrying an unrelated filter entry and an
unrelated extra field. -/
def docFilters0 : FiltersDoc :=
  { _id := FILTER_DOC_ID, filters := [("other", "x")], extra := [("rev", "1")] }

/-- The document stored after `push_filter_doc` runs on `docFilters0` with
`typesB`. -/
def pushedDoc0 : FiltersDoc :=
  ((push_filter_doc (some docFilters0) typesB).newState).getD docFilters0

/-- A configuration with the `auctions` and `lots` sections present and a
`db` section. -/
def cfgAll : ConvoyConfig :=
  { auctions := true, lots := true, assets := false, contracts := false,
    db := some "convoy_db" }

/-- A client-constructor oracle that always succeeds. -/
def mkClientOk : String → Except PyErr Unit := fun _ => Except.ok ()

/-! ## Helper lemmas -/

theorem mapGet_mapSet_same (m : List (String × String)) (k v : String) :
    mapGet (mapSet m k v) k = some v := by
  induction m with
  | nil => simp [mapSet, mapGet]
  | cons p rest ih =>
    obtain ⟨k0, v0⟩ := p
    by_cases h : k0 = k
    · simp [mapSet, h, mapGet]
    · simp [mapSet, h, mapGet, ih]

theorem mapGet_mapSet_other (m : List (String × String)) (k v k2 : String) (h : k2 ≠ k) :
    mapGet (mapSet m k v) k2 = mapGet m k2 := by
  have hk : ¬ k = k2 := fun hc => h hc.symm
  induction m with
  | nil => simp [mapSet, mapGet, hk]
  | cons p rest ih =>
    obtain ⟨k0, v0⟩ := p
    by_cases h0 : k0 = k
    · subst h0
      simp [mapSet, mapGet, hk]
    · simp only [mapSet, if_neg h0]
      by_cases h2 : k0 = k2
      · simp [mapGet, h2]
      · simp [mapGet, h2, ih]

theorem mapGet_mapDelete_same (m : List (String × String)) (k : String) :
    mapGet (mapDelete m k) k = none := by
  induction m with
  | nil => simp [mapDelete, mapGet]
  | cons p rest ih =>
    obtain ⟨k0, v0⟩ := p
    by_cases h : k0 = k
    · simp [mapDelete, h, ih]
    · simp [mapDelete, h, mapGet, ih]

theorem mapHas_mapDelete_same (m : List (String × String)) (k : String) :
    mapHas (mapDelete m k) k = false := by
  simp [mapHas, mapGet_mapDelete_same]

theorem continuous_changes_feed_step_request (db : ChangesRequest → ChangesResponse)
    (k : Bool) (t l : Nat) (f : String) (c : Nat) :
    (continuous_changes_feed_step db k t l f c).request = changesRequestOf c l f := by
  simp only [continuous_changes_feed_step]
  split <;> rfl

theorem continuous_changes_feed_step_response (db : ChangesRequest → ChangesResponse)
    (k : Bool) (t l : Nat) (f : String) (c : Nat) :
    (continuous_changes_feed_step db k t l f c).response = db (changesRequestOf c l f) := by
  simp only [continuous_changes_feed_step]
  split <;> rfl

theorem continuous_changes_feed_step_kill (db : ChangesRequest → ChangesResponse)
    (k : Bool) (t l : Nat) (f : String) (c : Nat) :
    (continuous_changes_feed_step db k t l f c).kill = k := by
  simp only [continuous_changes_feed_step]
  split <;> rfl

theorem continuous_changes_feed_step_terminated (db : ChangesRequest → ChangesResponse)
    (k : Bool) (t l : Nat) (f : String) (c : Nat) :
    (continuous_changes_feed_step db k t l f c).terminated = k := by
  simp only [continuous_changes_feed_step]
  split <;> rfl

theorem continuous_changes_feed_step_yielded (db : ChangesRequest → ChangesResponse)
    (k : Bool) (t l : Nat) (f : String) (c : Nat) :
    (continuous_changes_feed_step db k t l f c).yielded =
      (db (changesRequestOf c l f)).results.map ChangeRow.doc := by
  simp only [continuous_changes_feed_step]
  split
  · rfl
  · rename_i h
    have hlen : (db (changesRequestOf c l f)).results.length = 0 := by omega
    have hnil : (db (changesRequestOf c l f)).results = [] := List.length_eq_zero.mp hlen
    simp [hnil]

theorem continuous_changes_feed_step_slept (db : ChangesRequest → ChangesResponse)
    (k : Bool) (t l : Nat) (f : String) (c : Nat) :
    (continuous_changes_feed_step db k t l f c).slept =
      if (db (changesRequestOf c l f)).results = [] ∧ k = false then some t else none := by
  simp only [continuous_changes_feed_step]
  split
  · rename_i h
    have hne : (db (changesRequestOf c l f)).results ≠ [] := by
      intro hc
      rw [hc] at h
      simp at h
    simp [hne]
  · rename_i h
    have hlen : (db (changesRequestOf c l f)).results.length = 0 := by omega
    have hnil : (db (changesRequestOf c l f)).results = [] := List.length_eq_zero.mp hlen
    rcases k with _ | _ <;> simp [hnil]

theorem mem_continuous_changes_feed_aux (db : ChangesRequest → ChangesResponse)
    (killer : Nat → Bool) (t l : Nat) (f : String) :
    ∀ fuel i c st, st ∈ continuous_changes_feed_aux db killer t l f fuel i c →
      ∃ j c2, st = continuous_changes_feed_step db (killer j) t l f c2 := by
  intro fuel
  induction fuel with
  | zero =>
    intro i c st h
    simp [continuous_changes_feed_aux] at h
  | succ n ih =>
    intro i c st h
    simp only [continuous_changes_feed_aux, CONTINUOUS_CHANGES_FEED_FLAG, if_true] at h
    rcases List.mem_cons.mp h with h1 | h2
    · exact ⟨i, c, h1⟩
    · rcases em ((continuous_changes_feed_step db (killer i) t l f c).terminated = true) with
        ht | ht
      · rw [if_pos ht] at h2
        simp at h2
      · rw [if_neg ht] at h2
        exact ih (i + 1) _ st h2

theorem cursorChained_cons (a : FeedStep) (rest : List FeedStep)
    (h1 : cursorChained rest = true)
    (h2 : ∀ b, rest.head? = some b → b.request.since = a.response.last_seq) :
    cursorChained (a :: rest) = true := by
  cases rest with
  | nil => rfl
  | cons b r =>
    have hb := h2 b rfl
    simp only [cursorChained, hb] at h1 ⊢
    simp [h1]

theorem continuous_changes_feed_aux_chained (db : ChangesRequest → ChangesResponse)
    (killer : Nat → Bool) (t l : Nat) (f : String) :
    ∀ fuel i c,
      cursorChained (continuous_changes_feed_aux db killer t l f fuel i c) = true ∧
      (∀ st, (continuous_changes_feed_aux db killer t l f fuel i c).head? = some st →
        st.request.since = c) := by
  intro fuel
  induction fuel with
  | zero =>
    intro i c
    refine ⟨rfl, ?_⟩
    intro st h
    simp [continuous_changes_feed_aux] at h
  | succ n ih =>
    intro i c
    simp only [continuous_changes_feed_aux, CONTINUOUS_CHANGES_FEED_FLAG, if_true]
    constructor
    · apply cursorChained_cons
      · rcases em ((continuous_changes_feed_step db (killer i) t l f c).terminated = true) with
          ht | ht
        · rw [if_pos ht]
          rfl
        · rw [if_neg ht]
          exact (ih (i + 1) _).1
      · intro b hb
        rcases em ((continuous_changes_feed_step db (killer i) t l f c).terminated = true) with
          ht | ht
        · rw [if_pos ht] at hb
          simp at hb
        · rw [if_neg ht] at hb
          have := (ih (i + 1)
            (continuous_changes_feed_step db (killer i) t l f c).response.last_seq).2 b hb
          rw [this, continuous_changes_feed_step_response]
    · intro st h
      simp only [List.head?_cons, Option.some_inj] at h
      rw [← h, continuous_changes_feed_step_request]
      rfl

theorem continuous_changes_feed_aux_noPoll (db : ChangesRequest → ChangesResponse)
    (killer : Nat → Bool) (t l : Nat) (f : String) :
    ∀ fuel i c,
      noPollAfterTermination (continuous_changes_feed_aux db killer t l f fuel i c) = true := by
  intro fuel
  induction fuel with
  | zero =>
    intro i c
    rfl
  | succ n ih =>
    intro i c
    simp only [continuous_changes_feed_aux, CONTINUOUS_CHANGES_FEED_FLAG, if_true]
    rcases em ((continuous_changes_feed_step db (killer i) t l f c).terminated = true) with
      ht | ht
    · rw [if_pos ht]
      simp [noPollAfterTermination]
    · rw [if_neg ht]
      have hb : (continuous_changes_feed_step db (killer i) t l f c).terminated = false :=
        Bool.not_eq_true _ ▸ by simpa using ht
      simp [noPollAfterTermination, hb, ih (i + 1)]

theorem count_flatten_docs (l : List (List Document)) (d : Document) :
    l.flatten.count d = (l.map (fun s => s.count d)).sum := by
  induction l with
  | nil => rfl
  | cons a tl ih => simp [List.count_append, ih]

theorem feedYields_eq_flatten_results (steps : List FeedStep)
    (h : ∀ st ∈ steps, st.yielded = st.response.results.map ChangeRow.doc) :
    feedYields steps = (steps.map (fun st => st.response.results.map ChangeRow.doc)).flatten := by
  unfold feedYields
  rw [List.map_congr_left h]

theorem yielded_of_mem_feed (db : ChangesRequest → ChangesResponse)
    (killer : Nat → Bool) (t l : Nat) (f : String) (fuel i c : Nat) (st : FeedStep)
    (h : st ∈ continuous_changes_feed_aux db killer t l f fuel i c) :
    st.yielded = st.response.results.map ChangeRow.doc := by
  obtain ⟨j, c2, rfl⟩ := mem_continuous_changes_feed_aux db killer t l f fuel i c st h
  rw [continuous_changes_feed_step_yielded, continuous_changes_feed_step_response]

/-! ## Claim theorems -/

/-- C3: `retry_on_error e` is true iff `e` belongs to the recognized
upstream-API exception family and its status code is ≥ 500 or one of
409/412/429; in particular it is true on family members with status codes
500/502/503/409/412/429, false on family members with 400/404/403, and
false on every value outside the family regardless of status code. -/
theorem retry_on_error_spec :
    (∀ e : ApiError, retry_on_error e = true ↔
      (isinstance_EXCEPTIONS e = true ∧
        (e.status_code ≥ 500 ∨ e.status_code ∈ ([409, 412, 429] : List Int)))) ∧
    (∀ k, k ∈ EXCEPTIONS → ∀ c, c ∈ ([500, 502, 503, 409, 412, 429] : List Int) →
      retry_on_error { cls := k, status_code := c } = true) ∧
    (∀ k, k ∈ EXCEPTIONS → ∀ c, c ∈ ([400, 404, 403] : List Int) →
      retry_on_error { cls := k, status_code := c } = false) ∧
    (∀ c : Int, retry_on_error { cls := ExcClass.OtherException, status_code := c } = false) := by
  refine ⟨?_, ?_, ?_, ?_⟩
  · intro e
    unfold retry_on_error
    split
    · rename_i h
      exact iff_of_true rfl h
    · rename_i h
      exact iff_of_false (by simp) h
  · intro k hk c hc
    fin_cases hk <;> fin_cases hc <;> decide
  · intro k hk c hc
    fin_cases hk <;> fin_cases hc <;> decide
  · intro c
    simp [retry_on_error, isinstance_EXCEPTIONS, EXCEPTIONS]

/-- Witness for C3: the classifier evaluated at concrete family members with
status codes 502 and 404. -/
theorem retry_on_error_spec_witness :
    retry_on_error { cls := ExcClass.RequestFailed, status_code := 502 } = true ∧
    retry_on_error { cls := ExcClass.ResourceNotFound, status_code := 404 } = false :=
  ⟨retry_on_error_spec.2.1 ExcClass.RequestFailed (by decide) 502 (by decide),
   retry_on_error_spec.2.2.1 ExcClass.ResourceNotFound (by decide) 404 (by decide)⟩

/-- C2: over any run, each iteration yields exactly its batch's documents in
batch order; the whole yield sequence is the in-order concatenation of the
polled batches; every document occurrence of every polled batch is yielded;
and the multiplicity of each document among the yields equals its total
multiplicity across the polled batches — no drop, no re-yield, within one
run of the generator. -/
theorem continuous_changes_feed_yields_every_batch_doc :
    ∀ (db : ChangesRequest → ChangesResponse) (killer : Nat → Bool)
      (timeout limit fuel : Nat) (filter_doc : String),
      (∀ st, st ∈ continuous_changes_feed db killer fuel timeout limit filter_doc →
        st.yielded = st.response.results.map ChangeRow.doc) ∧
      feedYields (continuous_changes_feed db killer fuel timeout limit filter_doc) =
        ((continuous_changes_feed db killer fuel timeout limit filter_doc).map
          (fun st => st.response.results.map ChangeRow.doc)).flatten ∧
      (∀ st, st ∈ continuous_changes_feed db killer fuel timeout limit filter_doc →
        ∀ row, row ∈ st.response.results →
          row.doc ∈
            feedYields (continuous_changes_feed db killer fuel timeout limit filter_doc)) ∧
      (∀ d : Document,
        (feedYields (continuous_changes_feed db killer fuel timeout limit filter_doc)).count d =
          ((continuous_changes_feed db killer fuel timeout limit filter_doc).map
            (fun st => (st.response.results.map ChangeRow.doc).count d)).sum) := by
  intro db killer timeout limit fuel filter_doc
  have hy : ∀ st ∈ continuous_changes_feed db killer fuel timeout limit filter_doc,
      st.yielded = st.response.results.map ChangeRow.doc :=
    fun st h => yielded_of_mem_feed db killer timeout limit filter_doc fuel 0 0 st h
  have hflat := feedYields_eq_flatten_results _ hy
  refine ⟨hy, hflat, ?_, ?_⟩
  · intro st hst row hrow
    rw [hflat, List.mem_flatten]
    exact ⟨st.response.results.map ChangeRow.doc,
      List.mem_map_of_mem _ hst, List.mem_map_of_mem _ hrow⟩
  · intro d
    rw [hflat, count_flatten_docs, List.map_map]
    rfl

/-- Witness for C2: in a concrete one-batch run, the batch document is
yielded. -/
theorem continuous_changes_feed_yields_every_batch_doc_witness :
    docA ∈ feedYields
      (continuous_changes_feed dbA neverKill 1 10 100 "auction_filters/convoy_feed") :=
  (continuous_changes_feed_yields_every_batch_doc dbA neverKill 10 100 1
      "auction_filters/convoy_feed").2.2.1
    (continuous_changes_feed_step dbA false 10 100 "auction_filters/convoy_feed" 0)
    (by decide) { seq := 1, id := "a", doc := docA } (by decide)

/-- C5: consecutive polls are chained through the returned cursor — every
later request's `since` is the previous response's `last_seq`, empty batches
included — and an empty batch with the cancellation flag unset makes the
iteration sleep for the configured idle interval (`timeout`, default 10)
without terminating, so the next poll is issued with the returned cursor. -/
theorem continuous_changes_feed_cursor_advance :
    ∀ (db : ChangesRequest → ChangesResponse) (killer : Nat → Bool)
      (timeout limit fuel : Nat) (filter_doc : String),
      cursorChained (continuous_changes_feed db killer fuel timeout limit filter_doc) = true ∧
      (∀ st, st ∈ continuous_changes_feed db killer fuel timeout limit filter_doc →
        st.response.results = [] → st.kill = false →
        st.slept = some timeout ∧ st.terminated = false) := by
  intro db killer timeout limit fuel filter_doc
  refine ⟨(continuous_changes_feed_aux_chained db killer timeout limit filter_doc fuel 0 0).1, ?_⟩
  intro st hst hres hkill
  obtain ⟨j, c2, rfl⟩ :=
    mem_continuous_changes_feed_aux db killer timeout limit filter_doc fuel 0 0 st hst
  rw [continuous_changes_feed_step_response] at hres
  rw [continuous_changes_feed_step_kill] at hkill
  constructor
  · rw [continuous_changes_feed_step_slept, if_pos ⟨hres, hkill⟩]
  · rw [continuous_changes_feed_step_terminated, hkill]

/-- Witness for C5: a store returning cursor 42 with zero results and an
unset signal — the consumer sleeps 10 time units and polls again with
`since = 42`. -/
theorem continuous_changes_feed_cursor_advance_witness :
    cursorChained
      (continuous_changes_feed db42 neverKill 2 10 100 "auction_filters/convoy_feed") = true ∧
    (continuous_changes_feed db42 neverKill 2 10 100 "auction_filters/convoy_feed").map
      (fun st => st.request.since) = [0, 42] ∧
    (continuous_changes_feed_step db42 false 10 100 "auction_filters/convoy_feed" 0).slept =
      some 10 := by
  refine ⟨(continuous_changes_feed_cursor_advance db42 neverKill 10 100 2
    "auction_filters/convoy_feed").1, by decide, ?_⟩
  exact ((continuous_changes_feed_cursor_advance db42 neverKill 10 100 2
      "auction_filters/convoy_feed").2
    (continuous_changes_feed_step db42 false 10 100 "auction_filters/convoy_feed" 0)
    (by decide) (by decide) (by decide)).1

/-- C6: cancellation is honored only at batch boundaries — an empty batch
with the signal set terminates the generator without sleeping; a non-empty
batch is always drained to completion (every document yielded) and, with
the signal set, the iteration then terminates; and no further poll is ever
issued after a terminating iteration. Termination in this model is the
generator's normal `break`, not an error. -/
theorem continuous_changes_feed_cancellation :
    ∀ (db : ChangesRequest → ChangesResponse) (killer : Nat → Bool)
      (timeout limit fuel : Nat) (filter_doc : String),
      (∀ st, st ∈ continuous_changes_feed db killer fuel timeout limit filter_doc →
        st.response.results = [] → st.kill = true →
        st.slept = none ∧ st.terminated = true) ∧
      (∀ st, st ∈ continuous_changes_feed db killer fuel timeout limit filter_doc →
        st.response.results ≠ [] →
        st.yielded = st.response.results.map ChangeRow.doc ∧
        (st.kill = true → st.terminated = true)) ∧
      noPollAfterTermination
        (continuous_changes_feed db killer fuel timeout limit filter_doc) = true := by
  intro db killer timeout limit fuel filter_doc
  refine ⟨?_, ?_, continuous_changes_feed_aux_noPoll db killer timeout limit filter_doc fuel 0 0⟩
  · intro st hst hres hkill
    obtain ⟨j, c2, rfl⟩ :=
      mem_continuous_changes_feed_aux db killer timeout limit filter_doc fuel 0 0 st hst
    rw [continuous_changes_feed_step_response] at hres
    rw [continuous_changes_feed_step_kill] at hkill
    constructor
    · rw [continuous_changes_feed_step_slept, if_neg]
      intro hc
      rw [hkill] at hc
      cases hc.2
    · rw [continuous_changes_feed_step_terminated, hkill]
  · intro st hst _
    obtain ⟨j, c2, rfl⟩ :=
      mem_continuous_changes_feed_aux db killer timeout limit filter_doc fuel 0 0 st hst
    constructor
    · rw [continuous_changes_feed_step_yielded, continuous_changes_feed_step_response]
    · intro hkill
      rw [continuous_changes_feed_step_kill] at hkill
      rw [continuous_changes_feed_step_terminated, hkill]

/-- Witness for C6: with the signal set, an empty batch terminates without
sleeping, and a non-empty batch is fully yielded with no further poll. -/
theorem continuous_changes_feed_cancellation_witness :
    (continuous_changes_feed_step db42 true 10 100 "auction_filters/convoy_feed" 0).slept =
      none ∧
    feedYields (continuous_changes_feed dbA alwaysKill 5 10 100 "auction_filters/convoy_feed") =
      [docA] ∧
    noPollAfterTermination
      (continuous_changes_feed dbA alwaysKill 5 10 100 "auction_filters/convoy_feed") = true := by
  refine ⟨?_, by decide,
    (continuous_changes_feed_cancellation dbA alwaysKill 10 100 5
      "auction_filters/convoy_feed").2.2⟩
  exact ((continuous_changes_feed_cancellation db42 alwaysKill 10 100 1
      "auction_filters/convoy_feed").1
    (continuous_changes_feed_step db42 true 10 100 "auction_filters/convoy_feed" 0)
    (by decide) (by decide) (by decide)).1

/-- C1 counterexample: the claim says a document whose identifier is already
recorded in the dedup mapping is never yielded; here the mapping records id
`"a"` and the consumer nevertheless yields `docA`, whose id is `"a"` — the
consumer takes no dedup store at all. -/
theorem continuous_changes_feed_no_dedup_counterexample :
    lazydbMapping.has [("a", "1")] "a" = Except.ok true ∧
    docA.id = "a" ∧
    docA ∈ feedYields
      (continuous_changes_feed dbA neverKill 1 10 100 "auction_filters/convoy_feed") := by
  refine ⟨by decide, rfl, by decide⟩

/-- C1 amended: `continuous_changes_feed` applies no dedup — the dedup
mapping is not among its inputs, and every document of every polled batch is
yielded even when its identifier is already recorded in the mapping;
suppression of already-seen documents is left to the downstream pipeline. -/
theorem continuous_changes_feed_no_dedup :
    ∀ (db : ChangesRequest → ChangesResponse) (killer : Nat → Bool)
      (timeout limit fuel : Nat) (filter_doc : String)
      (ms : List (String × String)) (st : FeedStep) (row : ChangeRow),
      st ∈ continuous_changes_feed db killer fuel timeout limit filter_doc →
      row ∈ st.response.results →
      lazydbMapping.has ms row.doc.id = Except.ok true →
      row.doc ∈ feedYields (continuous_changes_feed db killer fuel timeout limit filter_doc) := by
  intro db killer timeout limit fuel filter_doc ms st row hst hrow _
  have hy : ∀ s ∈ continuous_changes_feed db killer fuel timeout limit filter_doc,
      s.yielded = s.response.results.map ChangeRow.doc :=
    fun s h => yielded_of_mem_feed db killer timeout limit filter_doc fuel 0 0 s h
  rw [feedYields_eq_flatten_results _ hy, List.mem_flatten]
  exact ⟨st.response.results.map ChangeRow.doc,
    List.mem_map_of_mem _ hst, List.mem_map_of_mem _ hrow⟩

/-- Witness for the amended C1: with id `"a"` recorded in the mapping, the
document with id `"a"` is still yielded. -/
theorem continuous_changes_feed_no_dedup_witness :
    docA ∈ feedYields
      (continuous_changes_feed dbA neverKill 2 10 100 "auction_filters/convoy_feed") :=
  continuous_changes_feed_no_dedup dbA neverKill 10 100 2 "auction_filters/convoy_feed"
    [("a", "1")] (continuous_changes_feed_step dbA false 10 100 "auction_filters/convoy_feed" 0)
    { seq := 1, id := "a", doc := docA } (by decide) (by decide) (by decide)

theorem mapHas_mapSet_same (m : List (String × String)) (k v : String) :
    mapHas (mapSet m k v) k = true := by
  simp [mapHas, mapGet_mapSet_same]

theorem storedConvoyFeed_getD (stored : Option FiltersDoc) :
    mapGet (stored.getD { _id := FILTER_DOC_ID, filters := [], extra := [] }).filters
      "convoy_feed" = storedConvoyFeed stored := by
  cases stored <;> rfl

theorem push_filter_doc_wrote_iff (stored : Option FiltersDoc) (types : AuctionsTypes) :
    (push_filter_doc stored types).wrote = true ↔
      storedConvoyFeed stored ≠ some (filter_convoy_feed_doc_of types) := by
  simp only [push_filter_doc]
  split
  · rename_i h
    rw [storedConvoyFeed_getD] at h
    exact iff_of_true rfl h
  · rename_i h
    rw [storedConvoyFeed_getD] at h
    exact iff_of_false (by simp) h

theorem push_filter_doc_after (stored : Option FiltersDoc) (types : AuctionsTypes) :
    storedConvoyFeed (push_filter_doc stored types).newState =
      some (filter_convoy_feed_doc_of types) := by
  simp only [push_filter_doc]
  split
  · rename_i h
    simp only [storedConvoyFeed]
    exact mapGet_mapSet_same _ _ _
  · rename_i h
    rw [storedConvoyFeed_getD] at h
    exact not_not.mp h

theorem push_filter_doc_second_noop (stored : Option FiltersDoc) (types : AuctionsTypes) :
    (push_filter_doc (push_filter_doc stored types).newState types).wrote = false := by
  have hiff := push_filter_doc_wrote_iff (push_filter_doc stored types).newState types
  have hafter := push_filter_doc_after stored types
  cases hb : (push_filter_doc (push_filter_doc stored types).newState types).wrote
  · rfl
  · exact absurd hafter (hiff.mp hb)

theorem isOkE_iff_errList_nil {α : Type} (r : Except PyErr α) :
    isOkE r = true ↔ errList r = [] := by
  cases r <;> simp [isOkE, errList]

theorem statuses_ok_iff_no_errors (L : List (String × Except PyErr Unit)) :
    (∀ q ∈ L.map (fun p => (p.1, isOkE p.2)), q.2 = true) ↔
      (L.map (fun p => errList p.2)).flatten = [] := by
  induction L with
  | nil => simp
  | cons p rest ih =>
    simp only [List.map_cons, List.flatten_cons, List.append_eq_nil, List.mem_cons,
      forall_eq_or_imp]
    rw [← ih]
    constructor
    · intro h
      exact ⟨(isOkE_iff_errList_nil p.2).mp h.1, h.2⟩
    · intro h
      exact ⟨(isOkE_iff_errList_nil p.2).mpr h.1, h.2⟩

/-- C4: `push_filter_doc` saves iff the stored `convoy_feed` entry differs
from the predicate text rendered from the given track-type lists; after any
call the stored entry equals the rendered text, so a repeated call with the
same lists never writes (two identical calls from a differing state perform
exactly one write), and once the rendered text changes, the next call
performs exactly one overwrite with no further writes on subsequent calls
with the same lists. -/
theorem push_filter_doc_write_iff_changed :
    ∀ (stored : Option FiltersDoc) (types1 types2 : AuctionsTypes),
      ((push_filter_doc stored types1).wrote = true ↔
        storedConvoyFeed stored ≠ some (filter_convoy_feed_doc_of types1)) ∧
      storedConvoyFeed (push_filter_doc stored types1).newState =
        some (filter_convoy_feed_doc_of types1) ∧
      (push_filter_doc (push_filter_doc stored types1).newState types1).wrote = false ∧
      (storedConvoyFeed stored ≠ some (filter_convoy_feed_doc_of types1) →
        (push_filter_doc stored types1).wrote = true ∧
        (push_filter_doc (push_filter_doc stored types1).newState types1).wrote = false) ∧
      (filter_convoy_feed_doc_of types2 ≠ filter_convoy_feed_doc_of types1 →
        (push_filter_doc (push_filter_doc stored types1).newState types2).wrote = true ∧
        (push_filter_doc
          (push_filter_doc (push_filter_doc stored types1).newState types2).newState
          types2).wrote = false) := by
  intro stored types1 types2
  refine ⟨push_filter_doc_wrote_iff stored types1, push_filter_doc_after stored types1,
    push_filter_doc_second_noop stored types1, ?_, ?_⟩
  · intro h
    exact ⟨(push_filter_doc_wrote_iff stored types1).mpr h,
      push_filter_doc_second_noop stored types1⟩
  · intro h
    constructor
    · rw [push_filter_doc_wrote_iff _ types2, push_filter_doc_after stored types1]
      intro hc
      exact h (Option.some_inj.mp hc).symm
    · exact push_filter_doc_second_noop _ types2

/-- Witness for C4: from an empty store, pushing `typesB` writes once, a
repeated push is a no-op, and pushing the changed `typesE` overwrites. -/
theorem push_filter_doc_write_iff_changed_witness :
    (push_filter_doc none typesB).wrote = true ∧
    (push_filter_doc (push_filter_doc none typesB).newState typesB).wrote = false ∧
    (push_filter_doc (push_filter_doc none typesB).newState typesE).wrote = true := by
  have h := push_filter_doc_write_iff_changed none typesB typesE
  exact ⟨(h.1).mpr (by simp [storedConvoyFeed]), h.2.2.1, ((h.2.2.2.2) (by decide)).1⟩

/-- C10: `push_filter_doc` touches only the `convoy_feed` entry — for every
initially stored filter document, the document's `_id`, all its other
fields, and every other named entry of its `filters` mapping are unchanged
by the call, whether or not a write occurred. -/
theorem push_filter_doc_frame :
    ∀ (d : FiltersDoc) (types : AuctionsTypes) (d2 : FiltersDoc),
      (push_filter_doc (some d) types).newState = some d2 →
      d2._id = d._id ∧ d2.extra = d.extra ∧
      ∀ k, k ≠ "convoy_feed" → mapGet d2.filters k = mapGet d.filters k := by
  intro d types d2 h
  simp only [push_filter_doc, Option.getD_some] at h
  split at h
  · cases Option.some_inj.mp h
    refine ⟨rfl, rfl, ?_⟩
    intro k hk
    exact mapGet_mapSet_other _ _ _ _ hk
  · cases Option.some_inj.mp h
    exact ⟨rfl, rfl, fun k hk => rfl⟩

/-- Witness for C10: the concrete stored document keeps its `_id`, its extra
field and its unrelated `other` filter entry across the call. -/
theorem push_filter_doc_frame_witness :
    pushedDoc0._id = docFilters0._id ∧
    pushedDoc0.extra = docFilters0.extra ∧
    mapGet pushedDoc0.filters "other" = mapGet docFilters0.filters "other" := by
  have h := push_filter_doc_frame docFilters0 typesB pushedDoc0 rfl
  exact ⟨h.1, h.2.1, h.2.2 "other" (by decide)⟩

/-- C8 counterexample: the claim says a failed self-check raises a
configuration error; in the code the checks are plain `assert` statements,
so a failing check raises `AssertionError`, and an unreachable backend's
own `socket.error` propagates unchanged — neither is a `ConfigError`. -/
theorem prepare_auctions_mapping_raises_assertion_counterexample :
    (prepare_auctions_mapping brokenMapping () true).2 = Except.error PyErr.assertionError ∧
    isConfigError PyErr.assertionError = false ∧
    (prepare_auctions_mapping unreachableMapping () true).2 =
      Except.error (PyErr.socketError "Connection refused") ∧
    isConfigError (PyErr.socketError "Connection refused") = false := by
  exact ⟨by decide, rfl, by decide, rfl⟩

/-- C8 amended: with check enabled the self-check runs put "test" "1",
has "test", get "test", delete "test", has "test", in that order; on a
functioning backend every check passes and the store is returned; a failed
check fails fast with `AssertionError` (not a configuration error), and an
unreachable backend's own error propagates (not a configuration error). -/
theorem prepare_auctions_mapping_self_check :
    (∀ s : List (String × String),
      prepare_auctions_mapping lazydbMapping s true =
        (selfCheckTrace, Except.ok (mapDelete (mapSet s "test" "1") "test"))) ∧
    prepare_auctions_mapping brokenMapping () true =
      ([MapOp.put "test" "1", MapOp.has "test"], Except.error PyErr.assertionError) ∧
    prepare_auctions_mapping unreachableMapping () true =
      ([MapOp.put "test" "1"], Except.error (PyErr.socketError "Connection refused")) ∧
    isConfigError PyErr.assertionError = false ∧
    isConfigError (PyErr.socketError "Connection refused") = false := by
  refine ⟨?_, by decide, by decide, rfl, rfl⟩
  intro s
  simp [prepare_auctions_mapping, lazydbMapping, selfCheckTrace,
    mapHas_mapSet_same, mapGet_mapSet_same, mapHas_mapDelete_same]

/-- C9 counterexample: the claim says every store error during
creation-or-fetch surfaces as `ConfigError`; a non-socket store error (the
couchdb library's own error on `create`) propagates unchanged instead. -/
theorem prepare_couchdb_not_config_counterexample :
    prepare_couchdb serverUnauthorized "convoy_db" =
      Except.error (PyErr.serverError "unauthorized") ∧
    isConfigError (PyErr.serverError "unauthorized") = false :=
  ⟨rfl, rfl⟩

/-- C9 amended: on success `prepare_couchdb` returns the database handle,
creating the database when absent and fetching it when present; a
`socket.error` raised during creation-or-fetch surfaces as
`ConfigError(e.strerror)`; every other error propagates unchanged. -/
theorem prepare_couchdb_errors :
    ∀ (server : CouchServer) (db_name : String),
      (∀ db : CouchDb, server.contains db_name = Except.ok false →
        server.create db_name = Except.ok db →
        prepare_couchdb server db_name = Except.ok db) ∧
      (∀ db : CouchDb, server.contains db_name = Except.ok true →
        server.index db_name = Except.ok db →
        prepare_couchdb server db_name = Except.ok db) ∧
      (∀ s : String, couchAttempt server db_name = Except.error (PyErr.socketError s) →
        prepare_couchdb server db_name = Except.error (PyErr.configError s)) ∧
      (∀ e : PyErr, couchAttempt server db_name = Except.error e → isSocketError e = false →
        prepare_couchdb server db_name = Except.error e) := by
  intro server db_name
  refine ⟨?_, ?_, ?_, ?_⟩
  · intro db h1 h2
    unfold prepare_couchdb couchAttempt
    rw [h1]
    simp [h2]
  · intro db h1 h2
    unfold prepare_couchdb couchAttempt
    rw [h1]
    simp [h2]
  · intro s h1
    unfold prepare_couchdb
    rw [h1]
  · intro e h1 h2
    unfold prepare_couchdb
    rw [h1]
    cases e <;> simp_all [isSocketError]

/-- Witness for the amended C9: a healthy server with the database present
returns the handle; a server whose `create` fails with a non-socket error
propagates that error. -/
theorem prepare_couchdb_errors_witness :
    prepare_couchdb serverOk "convoy_db" = Except.ok { name := "convoy_db" } ∧
    prepare_couchdb serverUnauthorized "convoy_db" =
      Except.error (PyErr.serverError "unauthorized") := by
  refine ⟨(prepare_couchdb_errors serverOk "convoy_db").2.1 { name := "convoy_db" } rfl rfl, ?_⟩
  exact (prepare_couchdb_errors serverUnauthorized "convoy_db").2.2.2
    (PyErr.serverError "unauthorized") rfl rfl

theorem init_clients_else_statuses {σ : Type} (config : ConvoyConfig)
    (mkClient : String → Except PyErr Unit) (server : CouchServer)
    (mapping_db : AuctionsMapping σ) (mapping_s : σ) (h : config.auctions = true) :
    (init_clients config mkClient server mapping_db mapping_s).statuses =
      (init_clients_clientResults config mkClient).map (fun p => (p.1, isOkE p.2)) ++
      [("couchdb", isOkE (init_clients_couchResult config server)),
       ("auctions_mapping", isOkE (init_clients_mappingResult mapping_db mapping_s))] := by
  simp [init_clients, h]

theorem init_clients_else_exceptions {σ : Type} (config : ConvoyConfig)
    (mkClient : String → Except PyErr Unit) (server : CouchServer)
    (mapping_db : AuctionsMapping σ) (mapping_s : σ) (h : config.auctions = true) :
    (init_clients config mkClient server mapping_db mapping_s).exceptions =
      init_clients_exceptions config mkClient server mapping_db mapping_s := by
  simp [init_clients, h]

theorem init_clients_else_outcome {σ : Type} (config : ConvoyConfig)
    (mkClient : String → Except PyErr Unit) (server : CouchServer)
    (mapping_db : AuctionsMapping σ) (mapping_s : σ) (h : config.auctions = true) :
    (init_clients config mkClient server mapping_db mapping_s).outcome =
      Option.elim (init_clients_exceptions config mkClient server mapping_db mapping_s).head?
        (Except.ok ()) Except.error := by
  simp [init_clients, h]

theorem head_elim_ok_iff (E : List PyErr) :
    Option.elim E.head? (Except.ok () : Except PyErr Unit) Except.error = Except.ok () ↔
      E = [] := by
  cases E <;> simp

theorem head_elim_error (E : List PyErr) (e : PyErr)
    (h : Option.elim E.head? (Except.ok () : Except PyErr Unit) Except.error =
      Except.error e) :
    E.head? = some e := by
  cases E with
  | nil => exact absurd h (by simp)
  | cons a t => simp_all

theorem statuses_all_ok_iff (L : List (String × Except PyErr Unit)) (c m : Except PyErr Unit) :
    (∀ q ∈ L.map (fun p => (p.1, isOkE p.2)) ++
        [("couchdb", isOkE c), ("auctions_mapping", isOkE m)], q.2 = true) ↔
      ((L.map (fun p => errList p.2)).flatten ++ errList c ++ errList m) = [] := by
  simp only [List.mem_append, List.mem_cons, List.not_mem_nil, or_false,
    List.append_eq_nil]
  rw [← statuses_ok_iff_no_errors L, ← isOkE_iff_errList_nil c, ← isOkE_iff_errList_nil m]
  constructor
  · intro h
    refine ⟨⟨fun q hq => h q (Or.inl hq), ?_⟩, ?_⟩
    · exact h ("couchdb", isOkE c) (Or.inr (Or.inl rfl))
    · exact h ("auctions_mapping", isOkE m) (Or.inr (Or.inr rfl))
  · rintro ⟨⟨hL, hc⟩, hm⟩ q hq
    rcases hq with hq | hq | hq
    · exact hL q hq
    · rw [hq]
      exact hc
    · rw [hq]
      exact hm

/-- C7 counterexample: with the `auctions` section absent (and `lots`
configured but failing), `init_clients` raises `KeyError` from
`clients_from_config['auctions_client']` — before the couchdb and mapping
resources are attempted (their statuses are never recorded) and without
re-raising the first collected exception (`boom`). -/
theorem init_clients_keyerror_counterexample :
    (init_clients cfgNoAuctions mkClientBoom serverOk lazydbMapping []).outcome =
      Except.error (PyErr.keyError "auctions_client") ∧
    (init_clients cfgNoAuctions mkClientBoom serverOk lazydbMapping []).exceptions =
      [PyErr.exc "boom"] ∧
    (init_clients cfgNoAuctions mkClientBoom serverOk lazydbMapping []).statuses.map
      Prod.fst = ["lots_client"] ∧
    PyErr.keyError "auctions_client" ≠ PyErr.exc "boom" := by
  exact ⟨rfl, rfl, rfl, by decide⟩

/-- C7 amended: for every configuration whose `auctions` section is
configured, `init_clients` attempts every configured resource — the
configured api clients in table order, then couchdb, then the dedup
mapping — recording a per-resource ok/failed status for each even when
earlier constructions fail; it returns normally exactly when no
construction failed (all statuses ok, no exception collected), and
otherwise raises the first collected exception after all attempts. -/
theorem init_clients_collects_all :
    ∀ (σ : Type) (config : ConvoyConfig) (mkClient : String → Except PyErr Unit)
      (server : CouchServer) (mapping_db : AuctionsMapping σ) (mapping_s : σ),
      config.auctions = true →
      ((init_clients config mkClient server mapping_db mapping_s).statuses.map Prod.fst =
        (clients_from_config_keys.filter
          (fun p => (sections_all.filter (sectionPresent config)).contains p.2)).map
          Prod.fst ++ ["couchdb", "auctions_mapping"]) ∧
      ((init_clients config mkClient server mapping_db mapping_s).outcome = Except.ok () ↔
        (init_clients config mkClient server mapping_db mapping_s).exceptions = []) ∧
      ((∀ q ∈ (init_clients config mkClient server mapping_db mapping_s).statuses,
          q.2 = true) ↔
        (init_clients config mkClient server mapping_db mapping_s).exceptions = []) ∧
      (∀ e, (init_clients config mkClient server mapping_db mapping_s).outcome =
          Except.error e →
        (init_clients config mkClient server mapping_db mapping_s).exceptions.head? =
          some e) := by
  intro σ config mkClient server mapping_db mapping_s hauc
  refine ⟨?_, ?_, ?_, ?_⟩
  · rw [init_clients_else_statuses config mkClient server mapping_db mapping_s hauc]
    simp [init_clients_clientResults, List.map_map]
  · rw [init_clients_else_outcome config mkClient server mapping_db mapping_s hauc,
      init_clients_else_exceptions config mkClient server mapping_db mapping_s hauc]
    exact head_elim_ok_iff _
  · rw [init_clients_else_statuses config mkClient server mapping_db mapping_s hauc,
      init_clients_else_exceptions config mkClient server mapping_db mapping_s hauc,
      init_clients_exceptions]
    exact statuses_all_ok_iff _ _ _
  · intro e he
    rw [init_clients_else_outcome config mkClient server mapping_db mapping_s hauc] at he
    rw [init_clients_else_exceptions config mkClient server mapping_db mapping_s hauc]
    exact head_elim_error _ e he

/-- Witness for the amended C7: a concrete configured run — two clients,
couchdb and the mapping all attempted and ok, and the call returns
normally. -/
theorem init_clients_collects_all_witness :
    (init_clients cfgAll mkClientOk serverOk lazydbMapping []).statuses.map Prod.fst =
      ["auctions_client", "lots_client", "couchdb", "auctions_mapping"] ∧
    (init_clients cfgAll mkClientOk serverOk lazydbMapping []).outcome = Except.ok () := by
  have h := init_clients_collects_all (List (String × String)) cfgAll mkClientOk serverOk
    lazydbMapping [] rfl
  refine ⟨?_, (h.2.1).mpr (by decide)⟩
  rw [h.1]
  decide
